import Mathlib

/-!
Shallow embedding of the LinkedIn post generator backend
(src/backend/app.py) for checking the natural-language specification.

External collaborators (the HTTP client library, the embedding provider,
the FAISS index, the generation model, and the LangChain agent executor)
are modelled as oracle parameters: each function that calls out takes the
outcome of that call as an explicit argument, and the Lean definition
reproduces the control flow the Python source performs around it.
Python exceptions are modelled with `Except`: a function that can raise
returns `Except PyErr _`, and a `try/except` block is a `match` on that
value, re-raising the kinds its handler does not cover.
-/

deriving instance DecidableEq for Except

/-- Kinds of Python exception that flow through the backend's handlers.
`except (ValueError, TypeError, KeyError)` clauses catch exactly the first
three constructors; every other exception kind is `otherError`. -/
inductive PyErr where
  | valueError (msg : String)
  | typeError (msg : String)
  | keyError (msg : String)
  | otherError (msg : String)
deriving DecidableEq

/-- Whether `except (ValueError, TypeError, KeyError)` catches this error. -/
def PyErr.isCaught : PyErr → Bool
  | .valueError _ => true
  | .typeError _ => true
  | .keyError _ => true
  | .otherError _ => false

/-- The Python `str(e)` of the error, as used in log lines and responses. -/
def PyErr.msg : PyErr → String
  | .valueError m => m
  | .typeError m => m
  | .keyError m => m
  | .otherError m => m

/-- Exception kinds named in `WebSearchTool._run`'s handler:
`requests.RequestException`, `json.JSONDecodeError`, `KeyError`. -/
inductive SearchErr where
  | requestException
  | jsonDecodeError
  | keyError
deriving DecidableEq

/-- Outcome of the HTTP GET against the lookup service, as observed by
`WebSearchTool._run`: the request can fail at the network/status level
(`requests.RequestException`, including timeouts and `raise_for_status`),
the body can fail to decode as JSON (`json.JSONDecodeError`), or it
decodes to a JSON object whose optional `AbstractText` field is
`abstractText`. -/
inductive HttpOutcome where
  | netError
  | badJson
  | ok (abstractText : Option String)
deriving DecidableEq

/-- Which syntactic branch of `WebSearchTool` produced the returned string:
the live abstract, the first-tier fallback return, or the second-tier
fallback return inside `_fallback_search`'s own handler. -/
inductive SearchSource where
  | live
  | fallback1
  | fallback2
deriving DecidableEq

/-- First-tier fallback sentence of `WebSearchTool._fallback_search`. -/
def fallback_primary : String :=
  "Unable to fetch latest information. Using cached data instead."

/-- Second-tier fallback sentence of `WebSearchTool._fallback_search`. -/
def fallback_secondary : String :=
  "Search functionality temporarily unavailable."

/-- The `try` body of `WebSearchTool._fallback_search` is the single
statement `return "Unable to fetch latest information. Using cached data
instead."` — a constant string return, embedded as a computation that
always succeeds with that constant and can raise none of the kinds its
handler names. -/
def fallback_body : Except SearchErr String :=
  Except.ok fallback_primary

/-- `WebSearchTool._fallback_search`, instrumented with the branch taken:
runs `fallback_body`; if it raised one of the handled kinds, the handler
would log and return the second-tier sentence. -/
def fallback_search_tr (_query : String) : String × SearchSource :=
  match fallback_body with
  | Except.ok s => (s, SearchSource.fallback1)
  | Except.error _ => (fallback_secondary, SearchSource.fallback2)

/-- `WebSearchTool._fallback_search`: the string it returns. -/
def fallback_search (query : String) : String :=
  (fallback_search_tr query).1

/-- The `try` body of `WebSearchTool._run`: perform the GET (raising
`requests.RequestException` on network/status failure), decode JSON
(raising `json.JSONDecodeError` on a malformed body), then evaluate
`data.get("AbstractText") or self._fallback_search(query)` — the `or`
falls through to the fallback when the field is absent or the empty
string. -/
def run_try_body (outcome : HttpOutcome) (query : String) :
    Except SearchErr (String × SearchSource) :=
  match outcome with
  | HttpOutcome.netError => Except.error SearchErr.requestException
  | HttpOutcome.badJson => Except.error SearchErr.jsonDecodeError
  | HttpOutcome.ok none => Except.ok (fallback_search_tr query)
  | HttpOutcome.ok (some a) =>
      if a = "" then Except.ok (fallback_search_tr query)
      else Except.ok (a, SearchSource.live)

/-- `WebSearchTool._run`, instrumented with the branch that produced the
result: the `except (requests.RequestException, json.JSONDecodeError,
KeyError)` handler logs the failure and returns `_fallback_search`. -/
def WebSearchTool.run_tr (outcome : HttpOutcome) (query : String) :
    String × SearchSource :=
  match run_try_body outcome query with
  | Except.ok r => r
  | Except.error _ => fallback_search_tr query

/-- `WebSearchTool.search`: the public interface, delegating to `_run`. -/
def WebSearchTool.search (outcome : HttpOutcome) (query : String) : String :=
  (WebSearchTool.run_tr outcome query).1

/-- `VectorDB._get_default_texts`: the fixed five-document corpus used
when no texts file is supplied. -/
def default_texts : List String :=
  [ "AI helps in personalized marketing campaigns and customer segmentation.",
    "Latest trends in AI for digital marketing and social media optimization.",
    "Data-driven marketing strategies using machine learning algorithms.",
    "Content optimization using natural language processing.",
    "Marketing automation and customer journey mapping with AI." ]

/-- The prompt template of `PostGenerator._create_prompt_template`, with
input variables topic, tone, audience, latest_info and context. -/
def post_template : String :=
  "\n            Create a professional LinkedIn post following these guidelines:\n            Topic: {topic}\n            Tone: {tone}\n            Target Audience: {audience}\n            \n            Latest Information to include:\n            {latest_info}\n            \n            Additional Context:\n            {context}\n            \n            Content Structure:\n            • Opening:\n              - Start with attention-grabbing hook using emojis and question/statistic\n              - Set up context and establish thought leadership\n              - Create urgency around the topic\n            \n            • Body:\n              - Include 3-4 data-backed statistics/insights with source citations\n              - Structure in clear 2-3 sentence paragraphs with bullet points\n              - Use industry-specific terminology matched to audience expertise level\n              - Add strategic emojis to highlight key points (2-3 per paragraph)\n              - Include real-world examples and case studies\n              - Address common pain points and solutions\n              - Incorporate trending industry keywords\n            \n            • Closing:\n              - End with compelling call-to-action\n              - Include 2 discussion questions to drive engagement\n              - Add 5-6 strategic hashtags (mix of trending/niche/branded)\n              - Provide 3 key takeaways or actionable tips\n              - Include invitation to connect/follow for more insights\n            \n            Formatting Guidelines:\n            • Length: 1000-2000 characters optimized for LinkedIn algorithm\n            • Use strategic line breaks and spacing for readability\n            • Match tone precisely to audience expectations\n            • Technical depth calibrated to audience expertise\n            • Include numbered lists and bullet points for scalability\n            • Use bold text for key phrases and statistics\n            • Add relevant mentions and tags where appropriate\n            \n            Engagement Optimization:\n            • Front-load key insights in first 2-3 lines\n            • Include controversy or unique perspective to drive comments\n            • Ask questions throughout to encourage interaction\n            • Use power words and emotional triggers\n            • Add relevant external links in first comment\n            • Time post for optimal engagement window\n            \n            Summary:\n            Create a data-driven, highly engaging post that establishes authority while driving meaningful discussion and audience growth through strategic formatting and psychology-based engagement tactics.\n            "

/-- Filling the prompt template: each {variable} placeholder is replaced
by the corresponding input, as `PromptTemplate`/`LLMChain` format the
template with the chain inputs. -/
def fillPrompt (topic tone audience latest_info context : String) : String :=
  ((((post_template.replace "{topic}" topic).replace "{tone}" tone).replace
      "{audience}" audience).replace "{latest_info}" latest_info).replace
    "{context}" context

/-- Python `str.strip()` with no argument: the string with leading and
trailing whitespace removed, modelled over the character list. -/
def pyStrip (s : String) : String :=
  String.mk
    (((s.data.dropWhile Char.isWhitespace).reverse.dropWhile
        Char.isWhitespace).reverse)

/-- Result of `PostGenerator.generate`: the prompts passed to the model
(one per `chain.run` invocation, in order) and the returned or raised
outcome. -/
structure GenResult where
  calls : List String
  output : Except PyErr String
deriving DecidableEq

/-- `PostGenerator.generate`: queries the vector index with the topic for
the top 3 documents (oracle `index`, returning the page contents most to
least similar), joins them with single spaces into the context string,
runs the LLM chain once on the filled template (oracle `llm`, which
returns the raw model output or raises), and returns the output with
leading and trailing whitespace stripped. A raised model error
propagates unmodified. -/
def PostGenerator.generate (index : String → Nat → List String)
    (llm : String → Except PyErr String)
    (topic tone audience latest_info : String) : GenResult :=
  let vector_results := index topic 3
  let context := String.intercalate " " vector_results
  let prompt := fillPrompt topic tone audience latest_info context
  { calls := [prompt]
    output := (llm prompt).map pyStrip }

/-- Exception kinds that `LinkedInPostGenerator._get_latest_info` catches
from `self.agent.run`: `ValueError` (which includes LangChain output
parsing failures, `OutputParserException` being a `ValueError`),
`TypeError`, and `KeyError`. A web-lookup failure never surfaces here at
all, since `WebSearchTool.search` already degrades to its fallback
string. -/
inductive AgentError where
  | valueError (msg : String)
  | typeError (msg : String)
  | keyError (msg : String)
deriving DecidableEq

/-- The `str(e)` of an agent error. -/
def AgentError.msg : AgentError → String
  | .valueError m => m
  | .typeError m => m
  | .keyError m => m

/-- The fallback string `_get_latest_info` builds from the topic. -/
def fallback_info (topic : String) : String :=
  "Based on industry trends and analysis, here are key insights about "
    ++ topic ++ "..."

/-- `LinkedInPostGenerator._get_latest_info` over the full exception
model: runs the agent on "Find recent updates or insights on {topic}"
(oracle `agentOutcome`: the string `agent.run` returned, or the error of
any kind it raised); a `ValueError`, `TypeError` or `KeyError` is
caught — a warning is logged and the templated fallback string is
returned — while an exception of any other kind is not caught and
re-raises to the caller. -/
def get_latest_info_exc (agentOutcome : Except PyErr String)
    (topic : String) : Except PyErr String :=
  match agentOutcome with
  | Except.ok s => Except.ok s
  | Except.error e =>
      if e.isCaught then Except.ok (fallback_info topic)
      else Except.error e

/-- The warning log lines `_get_latest_info` writes, over the full
exception model: one line when its handler caught the agent error, none
when the agent returned or the error re-raised past it. -/
def agent_warn_logs_exc (agentOutcome : Except PyErr String) : List String :=
  match agentOutcome with
  | Except.ok _ => []
  | Except.error e =>
      if e.isCaught then ["Agent execution error: " ++ e.msg] else []

/-- `LinkedInPostGenerator._get_latest_info`, restricted to agent runs
whose outcome is a returned string or an error of one of the kinds its
handler catches (`AgentError`); on such an error it logs a warning and
returns the templated fallback string. The composer-tier results below
are scoped to this restriction; `get_latest_info_exc` above is the full
model of the same source function over every exception kind, including
the re-raise path for the kinds the handler does not cover. -/
def get_latest_info (agentOutcome : Except AgentError String)
    (topic : String) : String :=
  match agentOutcome with
  | Except.ok s => s
  | Except.error _ => fallback_info topic

/-- The warning log line `_get_latest_info` writes when the agent raised
an error of a caught kind. -/
def agent_warn_logs (agentOutcome : Except AgentError String) : List String :=
  match agentOutcome with
  | Except.ok _ => []
  | Except.error e => ["Agent execution error: " ++ e.msg]

/-- Outcome of one `LinkedInPostGenerator.generate_post` call: the value
returned or error re-raised, and the log lines written during the call. -/
structure PostAttempt where
  outcome : Except PyErr String
  logs : List String
deriving DecidableEq

/-- `LinkedInPostGenerator.generate_post`: obtains the latest info (the
agent tier degrades internally and cannot raise a caught kind out of
`_get_latest_info`), then runs `PostGenerator.generate`; if that raises a
`ValueError`, `TypeError` or `KeyError`, logs one error line and
re-raises the same exception; any other exception kind propagates with
no log line from this handler. There is no retry: the body runs once. -/
def generate_post_method (agentOutcome : Except AgentError String)
    (index : String → Nat → List String)
    (llm : String → Except PyErr String)
    (topic tone audience : String) : PostAttempt :=
  let latest_info := get_latest_info agentOutcome topic
  let r := PostGenerator.generate index llm topic tone audience latest_info
  match r.output with
  | Except.ok s =>
      { outcome := Except.ok s
        logs := agent_warn_logs agentOutcome }
  | Except.error e =>
      if e.isCaught then
        { outcome := Except.error e
          logs := agent_warn_logs agentOutcome
                    ++ ["Post generation error: " ++ e.msg] }
      else
        { outcome := Except.error e
          logs := agent_warn_logs agentOutcome }

/-- Calls to external services observable while handling one request.
`embedCall` and `indexBuild` happen inside `LinkedInPostGenerator.__init__`
(`VectorDB` embeds the corpus and builds the FAISS index), `agentRun` is
the `agent.run` invocation of `_get_latest_info` (internally it may call
the model and the web-search tool), and `modelCall` is the single
`chain.run` of `PostGenerator.generate`. -/
inductive Event where
  | embedCall
  | indexBuild
  | agentRun
  | modelCall
deriving DecidableEq

/-- The JSON body of a POST to /generate-post, as read by
`data.get("topic")`, `data.get("tone")`, `data.get("audience")`:
`none` models an absent field. -/
structure Req where
  topic : Option String
  tone : Option String
  audience : Option String
deriving DecidableEq

/-- Python truthiness of an optional string field: an absent field yields
`None` and an empty string is falsy, so `not field` rejects both. -/
def fieldOk : Option String → Bool
  | none => false
  | some s => !s.isEmpty

/-- The validation check of the route: `if not topic or not tone or not
audience: raise ValueError(...)` passes exactly when all three fields are
present and non-empty. -/
def validReq (req : Req) : Bool :=
  fieldOk req.topic && fieldOk req.tone && fieldOk req.audience

/-- The message of the `ValueError` raised on validation failure. -/
def required_msg : String := "Topic, tone, and audience are required"

/-- The JSON document `jsonify` builds, with the HTTP status code. -/
structure RouteResponse where
  status : String
  post : Option String
  message : Option String
  code : Nat
deriving DecidableEq

/-- Result of the route handler for one POST request: the response it
returned (`none` when an uncaught exception escaped the handler and is
left to the framework), the escaped exception if any, the log lines
written, and the external-service events that occurred. -/
structure RouteOutcome where
  response : Option RouteResponse
  escaped : Option PyErr
  logs : List String
  events : List Event
deriving DecidableEq

/-- Events emitted by `LinkedInPostGenerator.__init__`: it embeds the
default corpus and builds the vector index (`self.vector_db` is
populated here), then wires the post generator and the agent without
further service calls. -/
def init_events : List Event := [Event.embedCall, Event.indexBuild]

/-- The /generate-post route handler (POST path): reads the three fields,
validates them, then constructs a fresh `LinkedInPostGenerator` — which
builds the vector index — and calls its `generate_post`. A `ValueError`,
`TypeError` or `KeyError` (including the validation error) is caught,
logged, and answered with `{status: "error", message: str(e)}` and HTTP
500; a successful generation is answered with `{status: "success", post:
...}`; any other exception kind escapes the handler. -/
def handle_request (agentOutcome : Except AgentError String)
    (index : String → Nat → List String)
    (llm : String → Except PyErr String)
    (req : Req) : RouteOutcome :=
  if validReq req then
    let attempt := generate_post_method agentOutcome index llm
      (req.topic.getD "") (req.tone.getD "") (req.audience.getD "")
    let events := init_events ++ [Event.agentRun, Event.modelCall]
    match attempt.outcome with
    | Except.ok post =>
        { response := some { status := "success", post := some post,
                             message := none, code := 200 }
          escaped := none
          logs := attempt.logs
          events := events }
    | Except.error e =>
        if e.isCaught then
          { response := some { status := "error", post := none,
                               message := some e.msg, code := 500 }
            escaped := none
            logs := attempt.logs ++ ["API error: " ++ e.msg]
            events := events }
        else
          { response := none
            escaped := some e
            logs := attempt.logs
            events := events }
  else
    { response := some { status := "error", post := none,
                         message := some required_msg, code := 500 }
      escaped := none
      logs := ["API error: " ++ required_msg]
      events := [] }

/-- Module-level and `__main__` code of app.py (Flask app construction,
CORS, logging setup, environment loading, `app.run`): none of it builds
a vector index or touches the embedding, model, or search services. -/
def startup_events : List Event := []

/-- The external-service events of a whole process run: the startup
events followed by the events of each handled request in order. -/
def processTrace (agentOutcome : Except AgentError String)
    (index : String → Nat → List String)
    (llm : String → Except PyErr String)
    (reqs : List Req) : List Event :=
  startup_events
    ++ (reqs.map fun r => (handle_request agentOutcome index llm r).events).flatten

/-- One decision of the agent LLM given the transcript so far: emit the
final answer, or request one invocation of the web-search tool. -/
inductive AgentStep where
  | finish (answer : String)
  | toolCall (query : String)

/-- Statistics of one agent run: the final answer (`none` when the run
stopped at the iteration cap), the number of loop iterations performed,
and the number of tool invocations made. -/
structure AgentRunStats where
  answer : Option String
  iterations : Nat
  toolCalls : Nat

/-- Modelled from the spec: the LangChain agent executor loop behind
`agent.run` is not part of src/; the spec describes it as "a bounded
tool-use loop (maximum 3 iterations)" that "terminates when the model
emits a final answer or the iteration cap is reached", maintained as "an
explicit finite-iteration state loop" with "a counter, a scratch
transcript, and a termination predicate". Each iteration consults the
model (`decide`) on the transcript; a final answer stops the loop, a
tool request appends the tool observation to the transcript and
continues, consuming one unit of the remaining iteration budget. -/
def agent_loop (decide : List String → AgentStep) (tool : String → String) :
    Nat → List String → AgentRunStats
  | 0, _ => { answer := none, iterations := 0, toolCalls := 0 }
  | fuel + 1, transcript =>
    match decide transcript with
    | AgentStep.finish a => { answer := some a, iterations := 1, toolCalls := 0 }
    | AgentStep.toolCall q =>
        let rest := agent_loop decide tool fuel (transcript ++ [tool q])
        { answer := rest.answer
          iterations := rest.iterations + 1
          toolCalls := rest.toolCalls + 1 }

/-- The iteration cap passed to `initialize_agent` in
`LinkedInPostGenerator._setup_agent`: `max_iterations=3`. -/
def max_iterations : Nat := 3

/-- Modelled from the spec: one `agent.run` call on the question
`_get_latest_info` asks, executing the bounded loop with the configured
iteration cap, starting from the transcript holding the question. -/
def agent_run (decide : List String → AgentStep) (tool : String → String)
    (topic : String) : AgentRunStats :=
  agent_loop decide tool max_iterations
    ["Find recent updates or insights on " ++ topic]

theorem fallback_info_split (t : String) :
    fallback_info t
      = "Based on industry trends"
        ++ (" and analysis, here are key insights about " ++ t ++ "...") := by
  unfold fallback_info
  have h : ("Based on industry trends"
        ++ " and analysis, here are key insights about " : String)
      = "Based on industry trends and analysis, here are key insights about " := by
    decide
  rw [← String.append_assoc, ← String.append_assoc, h]

/-- Claim C1 counterexample: an exception from `agent.run` outside the
caught kinds — here a provider quota error raised by the model call
inside the agent loop, which is no `ValueError`, `TypeError` or
`KeyError` — is not caught by `_get_latest_info` and propagates to its
caller, so the call can raise and no fallback string is returned. -/
theorem get_latest_info_reraises_cex :
    get_latest_info_exc
        (Except.error (PyErr.otherError
          "ResourceExhausted: 429 quota exceeded for model gemini-1.5-flash"))
        "AI in marketing"
      = Except.error (PyErr.otherError
          "ResourceExhausted: 429 quota exceeded for model gemini-1.5-flash") := by
  decide

/-- Claim C1 as amended: `_get_latest_info` catches exactly the value,
type, and key errors from `agent.run` (parsing errors being
`ValueError`s, and web-lookup failures never surfacing as errors at
all): on those it logs one warning and returns the deterministic
templated fallback referencing the topic, which starts with "Based on
industry trends"; an exception of any other kind raised during the
agent run is not caught and propagates to the caller with no warning
logged. -/
theorem get_latest_info_catches_only_caught_kinds (o : Except PyErr String)
    (topic : String) :
    (∃ s, o = Except.ok s ∧ get_latest_info_exc o topic = Except.ok s)
    ∨ (∃ e, o = Except.error e ∧ e.isCaught = true
        ∧ get_latest_info_exc o topic
            = Except.ok
              ("Based on industry trends and analysis, here are key insights about "
                ++ topic ++ "...")
        ∧ (∃ rest, get_latest_info_exc o topic
            = Except.ok ("Based on industry trends" ++ rest))
        ∧ agent_warn_logs_exc o = ["Agent execution error: " ++ e.msg])
    ∨ (∃ e, o = Except.error e ∧ e.isCaught = false
        ∧ get_latest_info_exc o topic = Except.error e
        ∧ agent_warn_logs_exc o = []) := by
  cases o with
  | ok s => exact Or.inl ⟨s, rfl, rfl⟩
  | error e =>
      cases hc : e.isCaught with
      | true =>
          refine Or.inr (Or.inl ⟨e, rfl, hc, ?_, ?_, ?_⟩)
          · simp [get_latest_info_exc, hc, fallback_info]
          · refine ⟨" and analysis, here are key insights about " ++ topic ++ "...", ?_⟩
            simp only [get_latest_info_exc, hc, if_true]
            exact congrArg Except.ok (fallback_info_split topic)
          · simp [agent_warn_logs_exc, hc]
      | false =>
          refine Or.inr (Or.inr ⟨e, rfl, hc, ?_, ?_⟩)
          · simp [get_latest_info_exc, hc]
          · simp [agent_warn_logs_exc, hc]

/-- Claim C5: for every query, `WebSearchTool.search` never raises: it
returns the live non-empty abstract text, or one of the two fixed
fallback sentences; and on a network error, a malformed response, or a
missing or empty abstract field it returns the fixed sentence "Unable to
fetch latest information. Using cached data instead.". -/
theorem web_search_never_raises (o : HttpOutcome) (q : String) :
    ((∃ a, o = HttpOutcome.ok (some a) ∧ a ≠ "" ∧ WebSearchTool.search o q = a)
      ∨ WebSearchTool.search o q = fallback_primary
      ∨ WebSearchTool.search o q = fallback_secondary)
    ∧ WebSearchTool.search HttpOutcome.netError q = fallback_primary
    ∧ WebSearchTool.search HttpOutcome.badJson q = fallback_primary
    ∧ WebSearchTool.search (HttpOutcome.ok none) q = fallback_primary
    ∧ WebSearchTool.search (HttpOutcome.ok (some "")) q = fallback_primary := by
  constructor
  · cases o with
    | netError => exact Or.inr (Or.inl rfl)
    | badJson => exact Or.inr (Or.inl rfl)
    | ok a? =>
        cases a? with
        | none => exact Or.inr (Or.inl rfl)
        | some a =>
            by_cases h : a = ""
            · subst h; exact Or.inr (Or.inl rfl)
            · exact Or.inl ⟨a, rfl, h, by
                simp [WebSearchTool.search, WebSearchTool.run_tr, run_try_body, h]⟩
  · exact ⟨rfl, rfl, rfl, rfl⟩

theorem agent_loop_bound (d : List String → AgentStep) (t : String → String) :
    ∀ (fuel : Nat) (tr : List String),
      (agent_loop d t fuel tr).iterations ≤ fuel
      ∧ (agent_loop d t fuel tr).toolCalls ≤ (agent_loop d t fuel tr).iterations := by
  intro fuel
  induction fuel with
  | zero => intro tr; simp [agent_loop]
  | succ n ih =>
      intro tr
      cases h : d tr with
      | finish a => simp [agent_loop, h]
      | toolCall query =>
          have hr := ih (tr ++ [t query])
          simp only [agent_loop, h]
          omega

/-- Claim C9: the agent tool-use loop is bounded: for every topic,
model-decision oracle and tool, an `agent.run` call performs at most 3
iterations and hence at most 3 tool invocations before terminating. -/
theorem agent_run_iteration_cap (d : List String → AgentStep)
    (t : String → String) (topic : String) :
    (agent_run d t topic).iterations ≤ 3
    ∧ (agent_run d t topic).toolCalls ≤ 3 := by
  have h := agent_loop_bound d t max_iterations
    ["Find recent updates or insights on " ++ topic]
  exact ⟨h.1, le_trans h.2 h.1⟩

/-- Claim C10: the second-tier branch of `_fallback_search` is dead code:
its guarded body is a constant string return that cannot raise, so
`_fallback_search` always returns the first-tier sentence, the
second-tier branch is never the source of any `search` result, and every
`search` result that is not live data is the first-tier sentence. -/
theorem fallback_second_tier_unreachable (o : HttpOutcome) (q : String) :
    fallback_search q = fallback_primary
    ∧ (WebSearchTool.run_tr o q).2 ≠ SearchSource.fallback2
    ∧ ((WebSearchTool.run_tr o q).2 = SearchSource.live
        ∨ WebSearchTool.search o q = fallback_primary) := by
  refine ⟨rfl, ?_, ?_⟩
  · cases o with
    | netError => simp [WebSearchTool.run_tr, run_try_body, fallback_search_tr, fallback_body]
    | badJson => simp [WebSearchTool.run_tr, run_try_body, fallback_search_tr, fallback_body]
    | ok a? =>
        cases a? with
        | none => simp [WebSearchTool.run_tr, run_try_body, fallback_search_tr, fallback_body]
        | some a =>
            by_cases h : a = "" <;>
              simp [WebSearchTool.run_tr, run_try_body, fallback_search_tr, fallback_body, h]
  · cases o with
    | netError => exact Or.inr rfl
    | badJson => exact Or.inr rfl
    | ok a? =>
        cases a? with
        | none => exact Or.inr rfl
        | some a =>
            by_cases h : a = ""
            · subst h; exact Or.inr rfl
            · exact Or.inl (by
                simp [WebSearchTool.run_tr, run_try_body, h])

/-- Claim C8: for every topic, tone, audience and latest_info,
`PostGenerator.generate` queries the vector index with the topic for the
top 3 results, joins their texts in result order into one context
string, invokes the generation model exactly once with the filled
template, and returns the model output stripped of leading and trailing
whitespace, unmodified otherwise. -/
theorem composer_generate_contract (index : String → Nat → List String)
    (llm : String → Except PyErr String)
    (topic tone audience latest_info : String) :
    (PostGenerator.generate index llm topic tone audience latest_info).calls
      = [fillPrompt topic tone audience latest_info
          (String.intercalate " " (index topic 3))]
    ∧ (PostGenerator.generate index llm topic tone audience latest_info).output
      = (llm (fillPrompt topic tone audience latest_info
          (String.intercalate " " (index topic 3)))).map pyStrip :=
  ⟨rfl, rfl⟩

/-- Claim C2 counterexample: with a model whose raw output is all
whitespace, `generate_post` succeeds and returns the empty string, so it
does not hold that a success is always non-empty. -/
theorem generate_post_empty_success_cex :
    (generate_post_method (Except.ok "info") (fun _ _ => [])
        (fun _ => Except.ok "   ") "AI" "professional" "marketers").outcome
      = Except.ok "" := by
  decide

/-- Claim C2 as amended: `generate_post` either re-raises the model error
or returns exactly the whitespace-stripped model output — which is empty
precisely when the raw output was entirely whitespace; no emptiness
check is performed on success. -/
theorem generate_post_success_is_stripped_output
    (ao : Except AgentError String) (index : String → Nat → List String)
    (llm : String → Except PyErr String) (topic tone audience : String) :
    (∀ r, (generate_post_method ao index llm topic tone audience).outcome
        = Except.ok r →
      ∃ s, llm (fillPrompt topic tone audience (get_latest_info ao topic)
            (String.intercalate " " (index topic 3))) = Except.ok s
        ∧ r = pyStrip s)
    ∧ (∀ e, (generate_post_method ao index llm topic tone audience).outcome
        = Except.error e →
      llm (fillPrompt topic tone audience (get_latest_info ao topic)
            (String.intercalate " " (index topic 3))) = Except.error e) := by
  constructor
  · intro r h
    cases hL : llm (fillPrompt topic tone audience (get_latest_info ao topic)
        (String.intercalate " " (index topic 3))) with
    | ok s =>
        refine ⟨s, rfl, ?_⟩
        simp [generate_post_method, PostGenerator.generate, Except.map, hL] at h
        exact h.symm
    | error e =>
        cases hc : e.isCaught <;>
          simp [generate_post_method, PostGenerator.generate, Except.map, hL, hc] at h
  · intro e h
    cases hL : llm (fillPrompt topic tone audience (get_latest_info ao topic)
        (String.intercalate " " (index topic 3))) with
    | ok s =>
        simp [generate_post_method, PostGenerator.generate, Except.map, hL] at h
    | error e2 =>
        cases hc : e2.isCaught <;>
          simp [generate_post_method, PostGenerator.generate, Except.map, hL, hc] at h <;>
          simp [h]

theorem generate_post_success_is_stripped_output_witness :
    ∃ s, ((fun _ => Except.ok " x ") : String → Except PyErr String)
        (fillPrompt "a" "b" "c" (get_latest_info (Except.ok "i") "a")
          (String.intercalate " " (((fun _ _ => []) : String → Nat → List String) "a" 3)))
        = Except.ok s ∧ "x" = pyStrip s :=
  (generate_post_success_is_stripped_output (Except.ok "i") (fun _ _ => [])
      (fun _ => Except.ok " x ") "a" "b" "c").1 "x" (by decide)

/-- Claim C6 counterexample: a `ValueError` raised inside the
ReasoningAgent does not make `generate_post` fail at all: it is absorbed
by `_get_latest_info` into the fallback string (logging a warning), and
`generate_post` succeeds with the composed post. -/
theorem agent_error_absorbed_cex :
    (generate_post_method
        (Except.error (AgentError.valueError "Could not parse LLM output"))
        (fun _ _ => []) (fun _ => Except.ok "post body")
        "AI" "professional" "marketers").outcome
      = Except.ok "post body"
    ∧ (generate_post_method
        (Except.error (AgentError.valueError "Could not parse LLM output"))
        (fun _ _ => []) (fun _ => Except.ok "post body")
        "AI" "professional" "marketers").logs
      = ["Agent execution error: Could not parse LLM output"] := by
  decide

/-- Claim C6 as amended: a value/type/key error raised inside
ContentComposer makes `generate_post` write exactly one additional log
line and re-raise the same error unchanged (no wrapper type exists); an
error of another kind propagates unchanged with no log line from this
tier; a value/type/key error inside ReasoningAgent is absorbed into the
fallback string and `generate_post` still succeeds; and the model is
invoked once per call — no retry. -/
theorem generate_post_error_tier_behavior
    (ao : Except AgentError String) (index : String → Nat → List String)
    (llm : String → Except PyErr String) (topic tone audience : String) :
    (∀ e, llm (fillPrompt topic tone audience (get_latest_info ao topic)
          (String.intercalate " " (index topic 3))) = Except.error e →
        e.isCaught = true →
        (generate_post_method ao index llm topic tone audience).outcome
            = Except.error e
        ∧ (generate_post_method ao index llm topic tone audience).logs
            = agent_warn_logs ao ++ ["Post generation error: " ++ e.msg])
    ∧ (∀ e, llm (fillPrompt topic tone audience (get_latest_info ao topic)
          (String.intercalate " " (index topic 3))) = Except.error e →
        e.isCaught = false →
        (generate_post_method ao index llm topic tone audience).outcome
            = Except.error e
        ∧ (generate_post_method ao index llm topic tone audience).logs
            = agent_warn_logs ao)
    ∧ (∀ e s, ao = Except.error e →
        llm (fillPrompt topic tone audience (fallback_info topic)
          (String.intercalate " " (index topic 3))) = Except.ok s →
        (generate_post_method ao index llm topic tone audience).outcome
            = Except.ok (pyStrip s))
    ∧ (PostGenerator.generate index llm topic tone audience
        (get_latest_info ao topic)).calls.length = 1 := by
  refine ⟨?_, ?_, ?_, rfl⟩
  · intro e hL hc
    constructor <;>
      simp [generate_post_method, PostGenerator.generate, Except.map, hL, hc]
  · intro e hL hc
    constructor <;>
      simp [generate_post_method, PostGenerator.generate, Except.map, hL, hc]
  · intro e s hao hL
    subst hao
    simp [generate_post_method, PostGenerator.generate, Except.map, get_latest_info, hL]

theorem generate_post_error_tier_behavior_witness :
    (generate_post_method (Except.error (AgentError.typeError "t0")) (fun _ _ => [])
        (fun _ => Except.error (PyErr.valueError "boom")) "a" "b" "c").outcome
      = Except.error (PyErr.valueError "boom")
    ∧ (generate_post_method (Except.error (AgentError.typeError "t0")) (fun _ _ => [])
        (fun _ => Except.error (PyErr.valueError "boom")) "a" "b" "c").logs
      = agent_warn_logs (Except.error (AgentError.typeError "t0"))
          ++ ["Post generation error: " ++ (PyErr.valueError "boom").msg] :=
  (generate_post_error_tier_behavior (Except.error (AgentError.typeError "t0"))
      (fun _ _ => []) (fun _ => Except.error (PyErr.valueError "boom"))
      "a" "b" "c").1 (PyErr.valueError "boom") rfl rfl

/-- Claim C7: when topic, tone, or audience is missing or empty, the
route answers exactly `{status: "error", message: "Topic, tone, and
audience are required"}` and performs no downstream call: no embedding,
index, model, or web-search service is touched. -/
theorem validation_rejects_before_any_call (ao : Except AgentError String)
    (index : String → Nat → List String) (llm : String → Except PyErr String)
    (req : Req) (h : validReq req = false) :
    (handle_request ao index llm req).response
      = some { status := "error", post := none,
               message := some "Topic, tone, and audience are required",
               code := 500 }
    ∧ (handle_request ao index llm req).events = [] := by
  constructor <;> simp [handle_request, h, required_msg]

theorem validation_rejects_before_any_call_witness :
    validReq { topic := some "", tone := some "professional",
               audience := some "marketers" } = false
    ∧ ((handle_request (Except.ok "i") (fun _ _ => []) (fun _ => Except.ok "p")
          { topic := some "", tone := some "professional",
            audience := some "marketers" }).response
        = some { status := "error", post := none,
                 message := some "Topic, tone, and audience are required",
                 code := 500 }
      ∧ (handle_request (Except.ok "i") (fun _ _ => []) (fun _ => Except.ok "p")
          { topic := some "", tone := some "professional",
            audience := some "marketers" }).events = []) :=
  ⟨by decide,
    validation_rejects_before_any_call (Except.ok "i") (fun _ _ => [])
      (fun _ => Except.ok "p")
      { topic := some "", tone := some "professional",
        audience := some "marketers" } (by decide)⟩

/-- Claim C4 counterexample: when the model raises a `ValueError` whose
message carries provider-specific detail, the route surfaces that exact
text to the user as the response message, not a generic failure
message. -/
theorem provider_error_text_in_response_cex :
    (handle_request (Except.ok "info") (fun _ _ => [])
        (fun _ => Except.error (PyErr.valueError
          "429 Resource has been exhausted: check Gemini API quota"))
        { topic := some "AI", tone := some "professional",
          audience := some "marketers" }).response
      = some { status := "error", post := none,
               message := some
                 "429 Resource has been exhausted: check Gemini API quota",
               code := 500 } := by
  decide

/-- Claim C4 as amended: on a caught generation failure the user-visible
response message is `str(e)` of the original error — including any
provider-specific text it carries — and the same cause is also written
to the server-side log. -/
theorem error_response_carries_error_msg (ao : Except AgentError String)
    (index : String → Nat → List String) (llm : String → Except PyErr String)
    (req : Req) (e : PyErr)
    (hv : validReq req = true)
    (he : llm (fillPrompt (req.topic.getD "") (req.tone.getD "")
            (req.audience.getD "")
            (get_latest_info ao (req.topic.getD ""))
            (String.intercalate " " (index (req.topic.getD "") 3)))
        = Except.error e)
    (hc : e.isCaught = true) :
    (handle_request ao index llm req).response
      = some { status := "error", post := none, message := some e.msg,
               code := 500 }
    ∧ ("API error: " ++ e.msg) ∈ (handle_request ao index llm req).logs := by
  constructor <;>
    simp [handle_request, hv, generate_post_method, PostGenerator.generate,
      Except.map, he, hc]

theorem error_response_carries_error_msg_witness :
    (handle_request (Except.ok "info") (fun _ _ => [])
        (fun _ => Except.error (PyErr.keyError "latest_info"))
        { topic := some "AI", tone := some "professional",
          audience := some "marketers" }).response
      = some { status := "error", post := none,
               message := some (PyErr.keyError "latest_info").msg, code := 500 }
    ∧ ("API error: " ++ (PyErr.keyError "latest_info").msg)
        ∈ (handle_request (Except.ok "info") (fun _ _ => [])
            (fun _ => Except.error (PyErr.keyError "latest_info"))
            { topic := some "AI", tone := some "professional",
              audience := some "marketers" }).logs :=
  error_response_carries_error_msg (Except.ok "info") (fun _ _ => [])
    (fun _ => Except.error (PyErr.keyError "latest_info"))
    { topic := some "AI", tone := some "professional",
      audience := some "marketers" }
    (PyErr.keyError "latest_info") (by decide) rfl rfl

theorem handle_request_events (ao : Except AgentError String)
    (index : String → Nat → List String) (llm : String → Except PyErr String)
    (req : Req) :
    (handle_request ao index llm req).events
      = if validReq req then init_events ++ [Event.agentRun, Event.modelCall]
        else [] := by
  by_cases h : validReq req
  · simp only [handle_request, h, if_true]
    cases (generate_post_method ao index llm (req.topic.getD "")
        (req.tone.getD "") (req.audience.getD "")).outcome with
    | ok s => rfl
    | error e => cases hc : e.isCaught <;> simp [hc]
  · simp [handle_request, h]

/-- Claim C3 counterexample: over a process run handling two identical
valid requests, the vector index is built twice — once inside each
request — while process startup builds none: the index is per-request
state, not built exactly once at startup. -/
theorem index_rebuilt_every_request_cex :
    (processTrace (Except.ok "info") (fun _ _ => []) (fun _ => Except.ok "post")
        [{ topic := some "AI", tone := some "professional",
           audience := some "marketers" },
         { topic := some "AI", tone := some "professional",
           audience := some "marketers" }]).count Event.indexBuild = 2
    ∧ startup_events.count Event.indexBuild = 0 := by
  decide

/-- Claim C3 as amended: the vector index is rebuilt on every valid
request — the route constructs a fresh `LinkedInPostGenerator`, whose
`__init__` embeds the corpus and builds the index, once per valid
request and zero times at process startup or on a request that fails
validation; within a single request the index is built once and only
queried thereafter. -/
theorem index_built_once_per_valid_request (ao : Except AgentError String)
    (index : String → Nat → List String) (llm : String → Except PyErr String)
    (reqs : List Req) :
    (processTrace ao index llm reqs).count Event.indexBuild
      = (reqs.filter (fun r => validReq r)).length
    ∧ startup_events.count Event.indexBuild = 0 := by
  refine ⟨?_, rfl⟩
  induction reqs with
  | nil => rfl
  | cons r rs ih =>
      have hone : ((handle_request ao index llm r).events).count Event.indexBuild
          = if validReq r then 1 else 0 := by
        rw [handle_request_events]
        by_cases h : validReq r <;> simp [h, init_events]
      simp only [processTrace, startup_events, List.nil_append] at ih ⊢
      simp only [List.map_cons, List.flatten_cons, List.count_append, hone,
        List.filter_cons]
      by_cases h : validReq r
      · simp [h, ih]
        omega
      · simp [h, ih]

theorem web_search_never_raises_witness :
    WebSearchTool.search HttpOutcome.netError "AI in marketing" = fallback_primary :=
  (web_search_never_raises HttpOutcome.netError "AI in marketing").2.1

theorem fallback_second_tier_unreachable_witness :
    fallback_search "AI in marketing" = fallback_primary
    ∧ (WebSearchTool.run_tr HttpOutcome.badJson "AI in marketing").2
        ≠ SearchSource.fallback2 :=
  ⟨(fallback_second_tier_unreachable HttpOutcome.badJson "AI in marketing").1,
    (fallback_second_tier_unreachable HttpOutcome.badJson "AI in marketing").2.1⟩
